import Mathlib

/-!
Shallow embedding of `src/Communicators/WebSerialCommunicator.ts`.

The class `WebSerialCommunicator` wraps a Web Serial `SerialPort`. Pure data
(options records, the merged configuration, the device-identifier string) is
embedded directly. Stateful methods (`connect`, `disconnect`, `write`,
`setOnResiveFunc`, `revokeConnection`, one iteration of the read loop) are
embedded as functions on an explicit adapter-state record that additionally
return the trace of platform calls the method performs, so that properties
such as "performs the open sequence only once" or "invokes the callback
exactly once" are visible as statements about the emitted trace.

The external Web Serial transport is modelled by its contract: a successful
`SerialPort.open` exposes non-null `readable`/`writable` channels, and
`SerialPort.close` sets both back to null. Callbacks are modelled by
numeric handles; what matters for the claims is which handle is invoked
with which string, not the body of the function.
-/

/-- Values of the Web Serial `SerialOptions.parity` field. -/
inductive ParityType where
  | none
  | even
  | odd
  deriving DecidableEq

/-- The effective `SerialOptions` record stored by the adapter
(the four keys the constructor defaults). -/
structure SerialOptions where
  baudRate : Nat
  dataBits : Nat
  stopBits : Nat
  parity : ParityType
  deriving DecidableEq

/-- A `Partial<SerialOptions>` argument: each key may be absent. -/
structure PartialSerialOptions where
  baudRate : Option Nat
  dataBits : Option Nat
  stopBits : Option Nat
  parity : Option ParityType
  deriving DecidableEq

/-- `SerialPort.getInfo()` result: the USB product id may be absent. -/
structure SerialPortInfo where
  usbProductId : Option Nat
  deriving DecidableEq

/-- The platform `SerialPort`: its `readable`/`writable` channels are null
(`none`) while the port is closed and non-null while it is open. -/
structure SerialPort where
  readable : Option Unit
  writable : Option Unit
  info : SerialPortInfo
  deriving DecidableEq

/-- `SerialPort.getInfo()`. -/
def SerialPort.getInfo (p : SerialPort) : SerialPortInfo := p.info

/-- Web Serial contract of a successful `SerialPort.open`: both channels
become non-null. -/
def SerialPort.openPort (p : SerialPort) : SerialPort :=
  { p with readable := some (), writable := some () }

/-- Web Serial contract of a successful `SerialPort.close`: both channels
become null. -/
def SerialPort.closePort (p : SerialPort) : SerialPort :=
  { p with readable := none, writable := none }

/-- Platform calls a method can perform, recorded as a trace. -/
inductive Event where
  | portOpen (opts : SerialOptions)
  | pipeEncoderToPort
  | pipePortToDecoder
  | startReadInterval
  | clearReadInterval
  | readerCancel
  | writerClose
  | portClose
  | portForget
  | writerWrite (data : String)
  | invokeCallback (cb : Nat) (data : String)
  | releaseLock
  deriving DecidableEq

/-- The mutable state of a `WebSerialCommunicator` instance. The two
`...StreamClosed` promises and the `readInterval` timer handle are tracked
only as null (`false`) / non-null (`true`); the registered callback is a
numeric handle. -/
structure WebSerialCommunicator where
  serialPort : SerialPort
  serialPortOptions : SerialOptions
  writableStreamClosed : Bool
  readableStreamClosed : Bool
  readInterval : Bool
  onResiveFunc : Option Nat
  deriving DecidableEq

/-- The defaults object the constructor passes to `Object.assign`. -/
def defaultSerialOptions : SerialOptions :=
  { baudRate := 9600, dataBits := 8, stopBits := 1, parity := ParityType.none }

/-- `Object.assign(defaults, options)` on the four option keys: a key present
in `options` overwrites the default, an absent key keeps it. -/
def mergeOptions (defaults : SerialOptions) (o : PartialSerialOptions) : SerialOptions :=
  { baudRate := o.baudRate.getD defaults.baudRate,
    dataBits := o.dataBits.getD defaults.dataBits,
    stopBits := o.stopBits.getD defaults.stopBits,
    parity := o.parity.getD defaults.parity }

/-- The constructor: stores the port, merges the options over the defaults,
and creates the codec streams; the stream-closed promises, the timer and the
callback all start out null. No transport side effects. -/
def construct (port : SerialPort) (options : PartialSerialOptions) : WebSerialCommunicator :=
  { serialPort := port,
    serialPortOptions := mergeOptions defaultSerialOptions options,
    writableStreamClosed := false,
    readableStreamClosed := false,
    readInterval := false,
    onResiveFunc := none }

/-- JavaScript `x || d` for `x : string | undefined`: `undefined` and the
empty string are falsy. -/
def jsOrString (v : Option String) (d : String) : String :=
  match v with
  | Option.none => d
  | Option.some s => if s = "" then d else s

/-- One hexadecimal digit as JavaScript renders it (`0`-`9`, `a`-`f`). -/
def hexDigitChar (n : Nat) : Char :=
  if n < 10 then Char.ofNat (48 + n) else Char.ofNat (87 + n)

/-- Digit-accumulation loop of `Number.prototype.toString(16)`; the first
argument is fuel (the value itself suffices, since the value shrinks by a
factor of 16 each step). -/
def toHexCore : Nat → Nat → List Char → List Char
  | 0, _, acc => acc
  | fuel + 1, n, acc =>
    if n / 16 = 0 then hexDigitChar (n % 16) :: acc
    else toHexCore fuel (n / 16) (hexDigitChar (n % 16) :: acc)

/-- `n.toString(16)` for a non-negative integer `n`. -/
def toHexString (n : Nat) : String :=
  String.mk (toHexCore (n + 1) n [])

/-- The `deviceIndentifier` getter (source spelling kept):
`webserial-${this.serialPort.getInfo().usbProductId?.toString(16) || 'unknown'}`. -/
def WebSerialCommunicator.deviceIndentifier (s : WebSerialCommunicator) : String :=
  "webserial-" ++ jsOrString (s.serialPort.getInfo.usbProductId.map toHexString) "unknown"

/-- The `isConnected` getter:
`this.serialPort.readable !== null && this.serialPort.writable !== null`. -/
def WebSerialCommunicator.isConnected (s : WebSerialCommunicator) : Bool :=
  s.serialPort.readable.isSome && s.serialPort.writable.isSome

/-- `connect()`: returns immediately when already connected; otherwise opens
the port with the merged options, starts the two pipe operations (their
completion promises become non-null) and starts the 10 ms read-interval
timer. -/
def connect (s : WebSerialCommunicator) : WebSerialCommunicator × List Event :=
  if s.isConnected then (s, [])
  else
    ({ s with
        serialPort := s.serialPort.openPort,
        writableStreamClosed := true,
        readableStreamClosed := true,
        readInterval := true },
      [Event.portOpen s.serialPortOptions, Event.pipeEncoderToPort,
        Event.pipePortToDecoder, Event.startReadInterval])

/-- `disconnect()`: returns immediately when not connected; otherwise clears
the read-interval timer when set, cancels the reader, awaits and nulls the
inbound pipe promise, closes the writer, awaits and nulls the outbound pipe
promise, then closes the port. -/
def disconnect (s : WebSerialCommunicator) : WebSerialCommunicator × List Event :=
  if !s.isConnected then (s, [])
  else
    let step1 : WebSerialCommunicator × List Event :=
      if s.readInterval then ({ s with readInterval := false }, [Event.clearReadInterval])
      else (s, [])
    let s2 := { step1.1 with readableStreamClosed := false }
    let s3 := { s2 with writableStreamClosed := false }
    let s4 := { s3 with serialPort := s3.serialPort.closePort }
    (s4, step1.2 ++ [Event.readerCancel, Event.writerClose, Event.portClose])

/-- Outcome of one `reader.read()` awaited inside the read loop: a value/done
pair, or a rejection. -/
inductive ReadOutcome where
  | ok (value : Option String) (done : Bool)
  | err
  deriving DecidableEq

/-- One iteration of the `readData` poll-loop body: on a successful read,
invokes the registered callback (when any) with `value || ''` and releases
the reader lock when `done`; a rejection is caught by the `try`/`catch` and
produces nothing. The function is total — an iteration never throws. -/
def readData (s : WebSerialCommunicator) (r : ReadOutcome) : List Event :=
  match r with
  | ReadOutcome.err => []
  | ReadOutcome.ok value done =>
    (match s.onResiveFunc with
     | Option.some cb => [Event.invokeCallback cb (jsOrString value "")]
     | Option.none => []) ++ (if done then [Event.releaseLock] else [])

/-- The callback invocations contained in a trace, as (handle, argument)
pairs. -/
def invokedCallbacks (es : List Event) : List (Nat × String) :=
  es.filterMap fun e =>
    match e with
    | Event.invokeCallback cb data => some (cb, data)
    | _ => none

/-- `write(data)`: a single `writer.write(data)` with no state change and no
check of the connection state. -/
def write (s : WebSerialCommunicator) (data : String) : WebSerialCommunicator × List Event :=
  (s, [Event.writerWrite data])

/-- `setOnResiveFunc(func)` (source spelling kept): replaces the stored
callback. -/
def setOnResiveFunc (s : WebSerialCommunicator) (func : Nat) : WebSerialCommunicator :=
  { s with onResiveFunc := some func }

/-- Errors the adapter raises itself. -/
inductive AdapterError where
  | unsupportedOperation (msg : String)
  deriving DecidableEq

/-- `revokeConnection()`: throws when `forget` is absent from
`SerialPort.prototype`, otherwise calls `this.serialPort.forget()`. -/
def revokeConnection (forgetSupported : Bool) : Except AdapterError (List Event) :=
  if !forgetSupported then
    Except.error (AdapterError.unsupportedOperation
      "Cannot revoke access of this port serial. This function is not supported.")
  else
    Except.ok [Event.portForget]

/-- The host `Serial` object, reached as `navigator.serial`. -/
structure Serial where
  getPorts : List SerialPort
  deriving DecidableEq

/-- The host `navigator` object; `serial` is absent when the capability is
unavailable. -/
structure Navigator where
  serial : Option Serial
  deriving DecidableEq

/-- Static `listDevices()`: `[]` when `navigator` is falsy or lacks `serial`,
otherwise `navigator.serial.getPorts()`. -/
def listDevices (nav : Option Navigator) : List SerialPort :=
  match nav with
  | Option.none => []
  | Option.some n =>
    match n.serial with
    | Option.none => []
    | Option.some s => s.getPorts

/-! ## Helper lemmas -/

lemma connect_of_isConnected (s : WebSerialCommunicator) (h : s.isConnected = true) :
    connect s = (s, []) := by
  simp [connect, h]

lemma connect_fst_isConnected (s : WebSerialCommunicator) :
    (connect s).1.isConnected = true := by
  by_cases h : s.isConnected = true
  · rw [connect_of_isConnected s h]
    exact h
  · simp only [connect, if_neg h]
    simp [WebSerialCommunicator.isConnected, SerialPort.openPort]

lemma disconnect_of_not_isConnected (s : WebSerialCommunicator)
    (h : s.isConnected = false) : disconnect s = (s, []) := by
  simp [disconnect, h]

lemma disconnect_fst_isConnected (s : WebSerialCommunicator) :
    (disconnect s).1.isConnected = false := by
  by_cases h : s.isConnected = true
  · have hcond : ¬((!s.isConnected) = true) := by simp [h]
    simp only [disconnect, if_neg hcond]
    by_cases hr : s.readInterval = true <;>
      simp [hr, WebSerialCommunicator.isConnected, SerialPort.closePort]
  · rw [disconnect_of_not_isConnected s (by simpa using h)]
    simpa using h

lemma toHexCore_ne_nil (fuel : Nat) :
    ∀ n acc, acc ≠ ([] : List Char) → toHexCore fuel n acc ≠ [] := by
  induction fuel with
  | zero => intro n acc h; simpa [toHexCore] using h
  | succ f ih =>
    intro n acc _
    simp only [toHexCore]
    split
    · simp
    · exact ih _ _ (by simp)

lemma toHexString_ne_empty (n : Nat) : toHexString n ≠ "" := by
  have h : toHexCore (n + 1) n [] ≠ [] := by
    simp only [toHexCore]
    split
    · simp
    · exact toHexCore_ne_nil _ _ _ (by simp)
  intro hc
  exact h (by simpa using congrArg String.data hc)

/-! ## Claim theorems -/

/-- C1: `isConnected` is true iff the underlying port's `readable` and
`writable` channels are both non-null; it is true after every successful
`connect()` and false after every successful `disconnect()`. -/
theorem c1_isConnected_channels_connect_disconnect (s : WebSerialCommunicator) :
    (s.isConnected = true ↔
      s.serialPort.readable ≠ none ∧ s.serialPort.writable ≠ none) ∧
    (connect s).1.isConnected = true ∧
    (disconnect s).1.isConnected = false := by
  refine ⟨?_, connect_fst_isConnected s, disconnect_fst_isConnected s⟩
  simp [WebSerialCommunicator.isConnected, Option.isSome_iff_ne_none]

/-- C2: the stored effective configuration equals the defaults
{baudRate 9600, dataBits 8, stopBits 1, parity none} overridden key-by-key
by the supplied fields, caller-supplied values winning; supplying only
{baudRate 115200} yields {115200, 8, 1, none}. -/
theorem c2_options_merge (port : SerialPort) (o : PartialSerialOptions) :
    (construct port o).serialPortOptions =
      { baudRate := o.baudRate.getD 9600,
        dataBits := o.dataBits.getD 8,
        stopBits := o.stopBits.getD 1,
        parity := o.parity.getD ParityType.none } ∧
    (construct port
        { baudRate := some 115200, dataBits := none,
          stopBits := none, parity := none }).serialPortOptions =
      { baudRate := 115200, dataBits := 8, stopBits := 1,
        parity := ParityType.none } :=
  ⟨rfl, rfl⟩

/-- C3: the second of two consecutive `connect()` calls is a no-op: it leaves
the state unchanged and performs no platform call at all (no open, no piping
setup, no new read loop). -/
theorem c3_second_connect_noop (s : WebSerialCommunicator) :
    connect (connect s).1 = ((connect s).1, []) :=
  connect_of_isConnected (connect s).1 (connect_fst_isConnected s)

/-- C4: `disconnect()` on a non-connected adapter — in particular one on
which `connect()` has never been called — returns with no state change and
no platform call. -/
theorem c4_disconnect_noop (s : WebSerialCommunicator)
    (h : s.isConnected = false) : disconnect s = (s, []) :=
  disconnect_of_not_isConnected s h

/-- Witness for C4: a freshly constructed adapter over a closed port. -/
theorem c4_disconnect_noop_witness :
    (construct ⟨none, none, ⟨none⟩⟩ ⟨none, none, none, none⟩).isConnected
        = false ∧
      disconnect (construct ⟨none, none, ⟨none⟩⟩ ⟨none, none, none, none⟩) =
        (construct ⟨none, none, ⟨none⟩⟩ ⟨none, none, none, none⟩, []) :=
  ⟨rfl, c4_disconnect_noop (construct ⟨none, none, ⟨none⟩⟩ ⟨none, none, none, none⟩) rfl⟩

/-- C5: after `setOnResiveFunc(f)` the stored callback is `f` (replacing any
previous registration), and a read-loop iteration that receives a chunk
invokes `f` exactly once, with the chunk's text, or with `""` when the read
yields no value. -/
theorem c5_callback_invoked_once (s : WebSerialCommunicator) (f : Nat)
    (v : Option String) (d : Bool) :
    (setOnResiveFunc s f).onResiveFunc = some f ∧
    invokedCallbacks (readData (setOnResiveFunc s f) (ReadOutcome.ok v d)) =
      [(f, v.getD "")] := by
  refine ⟨rfl, ?_⟩
  rcases v with _ | t
  · cases d <;> rfl
  · by_cases ht : t = "" <;>
      cases d <;>
      simp [readData, setOnResiveFunc, invokedCallbacks, jsOrString, ht]

/-- C6: `revokeConnection()` fails exactly when the platform lacks `forget`
support, raising the UnsupportedOperation error, and otherwise performs the
`forget` call exactly once. -/
theorem c6_revoke (b : Bool) :
    (revokeConnection b).isOk = b ∧
    revokeConnection false = Except.error (AdapterError.unsupportedOperation
      "Cannot revoke access of this port serial. This function is not supported.") ∧
    revokeConnection true = Except.ok [Event.portForget] ∧
    ((revokeConnection true).toOption.getD []).count Event.portForget = 1 := by
  refine ⟨?_, rfl, rfl, rfl⟩
  cases b <;> rfl

/-- C7: `listDevices()` returns `[]` when `navigator` is absent or lacks the
`serial` capability, never raising, and otherwise returns the platform's
list of already-authorized ports. -/
theorem c7_listDevices (ports : List SerialPort) :
    listDevices none = [] ∧
    listDevices (some { serial := none }) = [] ∧
    listDevices (some { serial := some { getPorts := ports } }) = ports :=
  ⟨rfl, rfl, rfl⟩

/-- C8 counterexample: for an adapter whose port reports no USB product id
the identifier is `"webserial-unknown"`, not the string `"unknown"` the
claim states. -/
theorem c8_counterexample :
    (construct ⟨none, none, ⟨none⟩⟩ ⟨none, none, none, none⟩).deviceIndentifier =
        "webserial-unknown" ∧
      ("webserial-unknown" : String) ≠ "unknown" :=
  ⟨rfl, by decide⟩

/-- C8 (amended): the device identifier equals `"webserial-"` followed by
the USB product id rendered in hexadecimal, or `"webserial-unknown"` when
the product id is unavailable. -/
theorem c8_deviceIndentifier (s : WebSerialCommunicator) :
    (s.serialPort.info.usbProductId = none →
      s.deviceIndentifier = "webserial-unknown") ∧
    (∀ n, s.serialPort.info.usbProductId = some n →
      s.deviceIndentifier = "webserial-" ++ toHexString n) := by
  constructor
  · intro h
    simp [WebSerialCommunicator.deviceIndentifier, SerialPort.getInfo, h, jsOrString]
  · intro n h
    simp [WebSerialCommunicator.deviceIndentifier, SerialPort.getInfo, h,
      jsOrString, toHexString_ne_empty n]

/-- Witness for C8 (amended): ports with product id absent and with product
id 0x2303. -/
theorem c8_deviceIndentifier_witness :
    (construct ⟨none, none, ⟨none⟩⟩ ⟨none, none, none, none⟩).deviceIndentifier =
        "webserial-unknown" ∧
      (construct ⟨none, none, ⟨some 8963⟩⟩ ⟨none, none, none, none⟩).deviceIndentifier =
        "webserial-" ++ toHexString 8963 :=
  ⟨(c8_deviceIndentifier (construct ⟨none, none, ⟨none⟩⟩ ⟨none, none, none, none⟩)).1 rfl,
    (c8_deviceIndentifier (construct ⟨none, none, ⟨some 8963⟩⟩ ⟨none, none, none, none⟩)).2
      8963 rfl⟩

/-- C9: a rejected read inside the poll loop is caught within that iteration:
the iteration performs no platform call, no callback invocation and no
logging, and (the body being a total function) never throws. -/
theorem c9_read_errors_swallowed (s : WebSerialCommunicator) :
    readData s ReadOutcome.err = [] ∧
    invokedCallbacks (readData s ReadOutcome.err) = [] :=
  ⟨rfl, rfl⟩

/-- C10: `write(data)` never consults the connection state: from every
adapter state, connected or not, it raises no adapter-level error and
performs exactly the single `writer.write(data)` enqueue. -/
theorem c10_write_unconditional (s : WebSerialCommunicator) (data : String) :
    write s data = (s, [Event.writerWrite data]) :=
  rfl
